import Mathlib

/-!
Verification development for the nl-cube Schema Catalog & SQL Resolution
Engine.  The Rust source is shallowly embedded: strings are Lean `String`s
(the relevant operations of Rust's `str` are re-implemented on `List Char`
with the same semantics for the ASCII inputs that occur here), fallible
code returns `Except`, and a Rust `panic!`/`unimplemented!`/slice-bound
abort is modelled as `Option.none`.
-/

namespace NlCube

/-- `pfx p s` is true when the list `p` is a prefix of `s`
(Rust `str::starts_with` on the underlying characters). -/
def pfx : List Char → List Char → Bool
  | [], _ => true
  | _ :: _, [] => false
  | p :: ps, c :: cs => p = c && pfx ps cs

/-- `sfx p s`: `p` is a suffix of `s` (Rust `str::ends_with`). -/
def sfx (p s : List Char) : Bool :=
  pfx p.reverse s.reverse

/-- Substring test, Rust `str::contains`. -/
def listContains : List Char → List Char → Bool
  | [], p => p.isEmpty
  | c :: cs, p => pfx p (c :: cs) || listContains cs p

/-- Index of the first occurrence of `p` in `s`, Rust `str::find`. -/
def findIdx? : List Char → List Char → Option Nat
  | [], p => if p.isEmpty then some 0 else none
  | c :: cs, p =>
    if pfx p (c :: cs) then some 0
    else (findIdx? cs p).map (· + 1)

/-- Index of the last occurrence of `p` in `s`, Rust `str::rfind`. -/
def rfindIdx? : List Char → List Char → Option Nat
  | [], p => if p.isEmpty then some 0 else none
  | c :: cs, p =>
    match rfindIdx? cs p with
    | some i => some (i + 1)
    | none => if pfx p (c :: cs) then some 0 else none

/-- Rust `str::replace` on character lists, with explicit fuel so the
recursion is structural (every step consumes at least one character, so
`s.length` fuel always suffices): replace every non-overlapping
occurrence of `p` by `r`, scanning left to right.  The replacement text
is not re-scanned.  An empty pattern matches at every character
boundary, exactly as Rust's `match_indices` does. -/
def listReplaceFuel : Nat → List Char → List Char → List Char → List Char
  | _, s, [], r => r ++ s.flatMap (fun c => c :: r)
  | 0, s, _ :: _, _ => s
  | _ + 1, [], _ :: _, _ => []
  | fuel + 1, c :: cs, p :: ps, r =>
    if pfx (p :: ps) (c :: cs) then
      r ++ listReplaceFuel fuel (cs.drop ps.length) (p :: ps) r
    else
      c :: listReplaceFuel fuel cs (p :: ps) r

/-- Rust `str::replace` lifted to `String`. -/
def rustReplace (s p r : String) : String :=
  ⟨listReplaceFuel s.data.length s.data p.data r.data⟩

/-- ASCII whitespace (covers every whitespace character appearing in
the modelled inputs; Rust `char::is_whitespace` agrees on ASCII). -/
def isWs (c : Char) : Bool :=
  c = ' ' || c = '\t' || c = '\n' || c = '\r'

/-- Rust `str::trim`. -/
def rustTrim (s : String) : String :=
  ⟨((s.data.dropWhile isWs).reverse.dropWhile isWs).reverse⟩

/-- Rust `str::contains` on `String`. -/
def rustContains (s p : String) : Bool :=
  listContains s.data p.data

/-- Rust `str::is_empty` on `String`. -/
def rustIsEmpty (s : String) : Bool :=
  s.data.isEmpty

/-- ASCII upper-casing of one character (Rust `str::to_uppercase`
restricted to ASCII, which is all the keyword test needs). -/
def upAscii (c : Char) : Char :=
  if 'a' ≤ c && c ≤ 'z' then Char.ofNat (c.toNat - 32) else c

/-- ASCII upper-casing of a string. -/
def rustToUpper (s : String) : String :=
  ⟨s.data.map upAscii⟩

/-- Rust `str::starts_with` on `String`. -/
def rustStarts (s p : String) : Bool :=
  pfx p.data s.data

/-- Rust `str::ends_with` on `String`. -/
def rustEnds (s p : String) : Bool :=
  sfx p.data s.data

/-- Split at every occurrence of character `sep`. -/
def splitChar (sep : Char) : List Char → List (List Char)
  | [] => [[]]
  | c :: cs =>
    let rest := splitChar sep cs
    if c = sep then
      [] :: rest
    else
      match rest with
      | [] => [[c]]
      | g :: gs => (c :: g) :: gs

/-- Rust `str::lines`: split on `'\n'`, strip one trailing `'\r'` from
each line, and drop the empty fragment a trailing newline would
produce (so `""` has no lines and `"a\n"` has exactly one). -/
def rustLines (s : String) : List String :=
  let parts := splitChar '\n' s.data
  let parts := if parts.getLast? = some [] then parts.dropLast else parts
  parts.map fun l => ⟨if sfx ['\r'] l then l.dropLast else l⟩

end NlCube

namespace NlCube

/-! ## The SQL qualifier (`apply_simple_qualification`, src/web/handlers/api.rs:349) -/

/-- One iteration of the `for table in tables` loop body of
`apply_simple_qualification`: the six keyword patterns replaced by
`str::replace` in source order, then the guarded `table.order_id`
column-pattern replacement. -/
def applyTableQual (schema table : String) (sql : String) : String :=
  let q := "\"" ++ schema ++ "\".\"" ++ table ++ "\""
  let r := rustReplace sql (" FROM " ++ table ++ " ") (" FROM " ++ q ++ " ")
  let r := rustReplace r (" FROM " ++ table ++ ";") (" FROM " ++ q ++ " ;")
  let r := rustReplace r (" JOIN " ++ table ++ " ") (" JOIN " ++ q ++ " ")
  let r := rustReplace r ("UPDATE " ++ table ++ " ") ("UPDATE " ++ q ++ " ")
  let r := rustReplace r ("INSERT INTO " ++ table ++ " ") ("INSERT INTO " ++ q ++ " ")
  let r := rustReplace r ("DELETE FROM " ++ table ++ " ") ("DELETE FROM " ++ q ++ " ")
  let columnPattern := table ++ ".order_id"
  if rustContains r columnPattern then
    rustReplace r columnPattern (q ++ "." ++ "order_id")
  else
    r

/-- `apply_simple_qualification(sql, tables, schema)`
(src/web/handlers/api.rs:349-404): folds the per-table replacement
pass over the known tables, starting from the original SQL. -/
def apply_simple_qualification (sql : String) (tables : List String) (schema : String) : String :=
  tables.foldl (fun acc t => applyTableQual schema t acc) sql

/-! ## `levenshtein_distance` (src/web/handlers/api.rs:1215-1249)

The Rust function fills an `(m+1)×(n+1)` matrix row by row; the
embedding builds the same rows.  `levRowAux` produces the cells
`matrix[i][1..=n]` of one row from the previous row, the current
character of `s1`, and the already-computed cell to the left. -/

def levRowAux (x : Char) : List Char → List Nat → Nat → Nat → List Nat
  | [], _, _, _ => []
  | y :: ys, prev, diag, left =>
    match prev with
    | [] => []
    | up :: prest =>
      let cost := if x = y then 0 else 1
      let cell := min (up + 1) (min (left + 1) (diag + cost))
      cell :: levRowAux x ys prest up cell

/-- Fill the remaining rows of the matrix, returning the last row. -/
def levRows (b : List Char) : List Char → Nat → List Nat → List Nat
  | [], _, prevRow => prevRow
  | x :: xs, i, prevRow =>
    let row := i :: levRowAux x b prevRow.tail (prevRow.headD 0) i
    levRows b xs (i + 1) row

/-- `levenshtein_distance(s1, s2)`: the value `matrix[m][n]` of the
dynamic-programming matrix the Rust function fills. -/
def levenshtein_distance (s1 s2 : String) : Nat :=
  let a := s1.data
  let b := s2.data
  let row0 := List.range (b.length + 1)
  (levRows b a 1 row0).getLastD 0

end NlCube

namespace NlCube

/-! ## SQL extraction (`OllamaProvider::extract_sql`, src/llm/providers/ollama.rs:87-153)

A Rust panic is modelled as `Option.none`; each of the three explicit
strategies is a separate definition so the chain is visible. -/

/-- Result of one extraction strategy: it may panic, return a string,
or decline so control falls through to the next strategy. -/
inductive ExtractStep where
  | panic
  | found (sql : String)
  | declined
  deriving DecidableEq, Repr

/-- Strategy (a) of `extract_sql` (ollama.rs:89-96): find the first
"```sql", take the *last* "```" of the whole content (`rfind`), and
slice between them.  When the last fence is the opener itself the slice
`content[start+6..end]` has its start beyond its end, which in Rust is
an out-of-bounds slice panic. -/
def tryTaggedFence (content : String) : ExtractStep :=
  match findIdx? content.data "```sql".data with
  | none => .declined
  | some s =>
    match rfindIdx? content.data "```".data with
    | none => .declined
    | some e =>
      if s + 6 ≤ e then
        .found (rustTrim ⟨(content.data.drop (s + 6)).take (e - (s + 6))⟩)
      else
        .panic

/-- Strategy (b) of `extract_sql` (ollama.rs:99-107): first "```",
then the next "```" after it, returning the trimmed interior. -/
def tryPlainFence (content : String) : ExtractStep :=
  match findIdx? content.data "```".data with
  | none => .declined
  | some s =>
    match findIdx? (content.data.drop (s + 3)) "```".data with
    | none => .declined
    | some e => .found (rustTrim ⟨(content.data.drop (s + 3)).take e⟩)

/-- The SQL statement keywords of the line-scanning strategy. -/
def sqlKeywords : List String :=
  ["SELECT", "WITH", "INSERT", "UPDATE", "DELETE", "CREATE", "ALTER", "DROP"]

/-- Does a line, trimmed and upper-cased, start with a SQL keyword? -/
def isSqlStartLine (line : String) : Bool :=
  sqlKeywords.any fun kw => rustStarts (rustToUpper (rustTrim line)) kw

/-- The accumulation loop of the line scan (ollama.rs:121-142): append
trimmed lines, stopping at a fence line or after a line ending in ";". -/
def accumSql : List String → String → String
  | [], sql => sql
  | l :: ls, sql =>
    let next := rustTrim l
    if next = "```" then sql
    else if rustStarts next "```" then sql
    else
      let sql := sql ++ " " ++ next
      if rustEnds next ";" then sql else accumSql ls sql

/-- Strategy (c) of `extract_sql` (ollama.rs:111-148): scan for the
first line starting with a SQL keyword and accumulate from there. -/
def lineScan : List String → ExtractStep
  | [] => .declined
  | l :: ls =>
    if isSqlStartLine l then .found (accumSql ls (rustTrim l))
    else lineScan ls

/-- `extract_sql(content)` (ollama.rs:87-153): the three strategies in
source order, then the raw content verbatim.  `none` models the panic
of strategy (a). -/
def extract_sql (content : String) : Option String :=
  match tryTaggedFence content with
  | .panic => none
  | .found s => some s
  | .declined =>
    match tryPlainFence content with
    | .panic => none
    | .found s => some s
    | .declined =>
      match lineScan (rustLines content) with
      | .found s => some s
      | _ => some content

/-- The check `generate_sql` applies to the extraction result
(ollama.rs:219-226): the call fails exactly when the extracted string
trims to empty; everything else, comments included, is returned as Ok. -/
def generate_sql_postcheck (content : String) : Option (Except Unit String) :=
  (extract_sql content).map fun sql =>
    if rustIsEmpty (rustTrim sql) then Except.error () else Except.ok sql

/-! ## The NL query orchestrator (`nl_query`, src/web/handlers/api.rs:223-327) -/

/-- The SQL statement `nl_query` prepares, executes, and reports in the
`x-generated-sql` header, as a function of the target subject and of the
raw SQL the generator returned.  The raw SQL is rejected when trim-empty
(api.rs:258-263); it is then cleaned of backticks (api.rs:268) — and
discarded: the statement actually used is the hardcoded
`SELECT COUNT(*) FROM "<subject>"."orders";` of api.rs:272. -/
def nlQueryExecutedSql (subject rawSql : String) : Except String String :=
  if rustIsEmpty (rustTrim rawSql) then
    Except.error "The model produced empty SQL"
  else
    let _validated := rustReplace rawSql "`" ""
    Except.ok ("SELECT COUNT(*) FROM \"" ++ subject ++ "\".\"orders\";")

/-! ## Table discovery and the schema cache
(`SchemaManager::refresh_cache`, src/db/schema_manager.rs:61-182) -/

/-- Outcome of one discovery query against a subject database:
`conn.prepare` may fail, the subsequent `query_map` may fail (its error
is propagated by `?`), or a list of row values is produced. -/
inductive ProbeOutcome where
  | prepErr
  | queryErr
  | rows (ts : List String)
  deriving DecidableEq, Repr

/-- The internal-name prefixes excluded from discovery (used in the SQL
text of the `sqlite_master` query and in the PRAGMA row filter of
schema_manager.rs:131-133). -/
def isInternalName (t : String) : Bool :=
  rustStarts t "sqlite_" || rustStarts t "duck_" || rustStarts t "pg_"

/-- The fixed conventional table names of the last-resort probe
(schema_manager.rs:147). -/
def fixedProbeNames : List String := ["orders", "customers", "products", "sales"]

/-- The last-resort probe (schema_manager.rs:146-157): `prepOk` records,
for each fixed name in order, whether its zero-row SELECT prepares; the
names that do are kept, the others skipped, and nothing fails. -/
def probeFixed (prepOk : List Bool) : List String :=
  ((fixedProbeNames.zip prepOk).filter (fun p => p.2)).map (fun p => p.1)

/-- The table-discovery body run per subject (schema_manager.rs:83-159):
`s1` is the `sqlite_master` query (its SQL already excludes the internal
prefixes), `s2` is `SHOW TABLES` — consulted only in the `Err` branch of
`s1`'s prepare —, `s3` is `PRAGMA table_list` (tried when the table list
is still empty, its rows filtered for internal prefixes), and `s4` the
fixed-name probe (tried when the list is still empty).  A `query_map`
failure in s1–s3 is propagated by `?` and aborts discovery. -/
def discoverTables (s1 s2 s3 : ProbeOutcome) (s4 : List Bool) : Except Unit (List String) :=
  let step1 : Except Unit (List String) :=
    match s1 with
    | .rows ts => Except.ok ts
    | .queryErr => Except.error ()
    | .prepErr =>
      match s2 with
      | .rows ts => Except.ok ts
      | .queryErr => Except.error ()
      | .prepErr => Except.ok []
  match step1 with
  | .error e => Except.error e
  | .ok tables1 =>
    let step2 : Except Unit (List String) :=
      if tables1.isEmpty then
        match s3 with
        | .rows ts => Except.ok (ts.filter (fun t => !isInternalName t))
        | .queryErr => Except.error ()
        | .prepErr => Except.ok []
      else Except.ok tables1
    match step2 with
    | .error e => Except.error e
    | .ok tables2 =>
      Except.ok (if tables2.isEmpty then probeFixed s4 else tables2)

/-- Modelled from the spec: the discovery chain as §4.1 and claim C5
state it — four strategies in fixed order, each advancing to the next
whenever the previous yields an empty result, no failure ever fatal. -/
def specDiscoverTables (s1 s2 s3 : ProbeOutcome) (s4 : List Bool) : List String :=
  let tablesOf : ProbeOutcome → List String
    | .rows ts => ts
    | _ => []
  let t1 := tablesOf s1
  if !t1.isEmpty then t1 else
  let t2 := tablesOf s2
  if !t2.isEmpty then t2 else
  let t3 := (tablesOf s3).filter (fun t => !isInternalName t)
  if !t3.isEmpty then t3 else probeFixed s4

/-- The schema cache: subject name to discovered table names, in
directory order (the `HashMap<String, Vec<String>>` of the Rust code as
an association list). -/
abbrev Cache := List (String × List String)

/-- One subject directory as `refresh_cache` sees it: its name, whether
its `.duckdb` file exists, whether `Connection::open` succeeds, and the
outcomes of the discovery queries. -/
structure SubjectProbe where
  name : String
  hasDbFile : Bool
  openOk : Bool
  s1 : ProbeOutcome
  s2 : ProbeOutcome
  s3 : ProbeOutcome
  s4 : List Bool
  deriving DecidableEq, Repr

/-- Probing one subject (schema_manager.rs:81-161): an open failure, or
any error from `discoverTables`, is propagated by `.await??`. -/
def probeSubject (d : SubjectProbe) : Except Unit (List String) :=
  if d.openOk then discoverTables d.s1 d.s2 d.s3 d.s4 else Except.error ()

/-- The loop of `refresh_cache` (schema_manager.rs:71-170): builds the
new `schema_map` in directory order, skipping subjects without a
database file; the first probe error aborts the whole build. -/
def buildSchemaMap : List SubjectProbe → Except Unit Cache
  | [] => Except.ok []
  | d :: ds =>
    if d.hasDbFile then
      match probeSubject d with
      | .error e => Except.error e
      | .ok ts =>
        match buildSchemaMap ds with
        | .error e => Except.error e
        | .ok m => Except.ok ((d.name, ts) :: m)
    else buildSchemaMap ds

/-- `refresh_cache` (schema_manager.rs:61-182): on success the fully
built map replaces the cache in one assignment (rs:173-174); on error
the function returns before reaching the write lock, so the cache keeps
its previous contents. -/
def refreshCache (ds : List SubjectProbe) (old : Cache) : Except Unit Unit × Cache :=
  match buildSchemaMap ds with
  | .error e => (Except.error e, old)
  | .ok m => (Except.ok (), m)

/-- Interleaving model for the cache swap: the only mutation
`refresh_cache` performs on the shared cache is the single whole-map
assignment under the write lock, so a trace is a sequence of reader
reads with at most the one swap among them. -/
inductive CacheEvent where
  | swap
  | read
  deriving DecidableEq, Repr

/-- The values successive readers observe along a trace: `read` yields
the current cache, `swap` replaces it with the fully built new map. -/
def observations (newMap : Cache) : List CacheEvent → Cache → List Cache
  | [], _ => []
  | CacheEvent.swap :: es, _ => observations newMap es newMap
  | CacheEvent.read :: es, c => c :: observations newMap es c

end NlCube

namespace NlCube

/-- `execute_stmt` (src/db/db_utils.rs:8-28): the generated `match` on
`params.len()` dispatches parameter counts 0 through 27 to
`stmt.execute`; any larger count falls into the macro's
`unimplemented!()` arm, a panic (`none`), exactly as the function's own
doc comment states. -/
def execute_stmt_dispatch (nParams : Nat) : Option Unit :=
  if nParams ≤ 27 then some () else none

/-- Strategy (b) of extraction only ever returns a string or declines;
it has no panicking path. -/
theorem tryPlainFence_ne_panic (c : String) : tryPlainFence c ≠ ExtractStep.panic := by
  unfold tryPlainFence
  split
  · simp
  · split <;> simp

/-- The line scan only ever returns a string or declines. -/
theorem lineScan_ne_panic (ls : List String) : lineScan ls ≠ ExtractStep.panic := by
  induction ls with
  | nil => simp [lineScan]
  | cons l rest ih =>
    unfold lineScan
    by_cases h : isSqlStartLine l = true
    · simp [h]
    · simp [h, ih]

/-- Values a reader can observe along any interleaving: each `read`
yields the cache as left by the preceding events, which is the starting
cache until the single swap and the new map afterwards. -/
theorem observations_mem (newMap : Cache) (es : List CacheEvent) (start c : Cache)
    (hc : c ∈ observations newMap es start) : c = start ∨ c = newMap := by
  induction es generalizing start with
  | nil => simp [observations] at hc
  | cons e rest ih =>
    cases e with
    | swap =>
      simp only [observations] at hc
      rcases ih newMap hc with h | h
      · exact Or.inr h
      · exact Or.inr h
    | read =>
      simp only [observations, List.mem_cons] at hc
      rcases hc with h | h
      · exact Or.inl h
      · exact ih start h

end NlCube

namespace NlCube

/-- Claim C1 (code-bug evidence): at subject `sales` with generator
output `SELECT COUNT(*) FROM customers`, `nl_query` prepares, executes
and reports the hardcoded statement
`SELECT COUNT(*) FROM "sales"."orders";` (api.rs:272), which is not the
subject-qualified form of the generated SQL — the qualifier would have
left the generated statement as `SELECT COUNT(*) FROM customers`. -/
theorem C1_nl_query_executes_hardcoded_sql :
    nlQueryExecutedSql "sales" "SELECT COUNT(*) FROM customers"
      = Except.ok "SELECT COUNT(*) FROM \"sales\".\"orders\";" ∧
    apply_simple_qualification "SELECT COUNT(*) FROM customers" ["orders", "customers"] "sales"
      = "SELECT COUNT(*) FROM customers" ∧
    ("SELECT COUNT(*) FROM \"sales\".\"orders\";" : String)
      ≠ "SELECT COUNT(*) FROM customers" := by
  refine ⟨rfl, by decide, by decide⟩

/-- Claim C2 (code-bug evidence): `apply_simple_qualification` is not
idempotent.  On `"SELECT 1 FROM x FROM x "` with table `x` and subject
`s`, the first pass consumes the space shared by the two overlapping
` FROM x ` occurrences, leaving the second reference bare; a second
application then qualifies it, so qualify∘qualify ≠ qualify. -/
theorem C2_qualification_not_idempotent :
    apply_simple_qualification "SELECT 1 FROM x FROM x " ["x"] "s"
      = "SELECT 1 FROM \"s\".\"x\" FROM x " ∧
    apply_simple_qualification
        (apply_simple_qualification "SELECT 1 FROM x FROM x " ["x"] "s") ["x"] "s"
      = "SELECT 1 FROM \"s\".\"x\" FROM \"s\".\"x\" " ∧
    apply_simple_qualification
        (apply_simple_qualification "SELECT 1 FROM x FROM x " ["x"] "s") ["x"] "s"
      ≠ apply_simple_qualification "SELECT 1 FROM x FROM x " ["x"] "s" := by
  refine ⟨by decide, by decide, by decide⟩

/-- Claim C3 (counterexample): with subject `a` probing fine and subject
`b` whose database cannot be opened, `refresh_cache` returns an error —
not `Ok` — and the freshly discovered entry for `a` is discarded (only
the previous cache content survives, untouched). -/
theorem C3_refresh_aborts_on_subject_failure :
    refreshCache
        [⟨"a", true, true, ProbeOutcome.rows ["ta"], ProbeOutcome.prepErr,
          ProbeOutcome.prepErr, []⟩,
         ⟨"b", true, false, ProbeOutcome.prepErr, ProbeOutcome.prepErr,
          ProbeOutcome.prepErr, []⟩]
        [("c", ["t0"])]
      = (Except.error (), [("c", ["t0"])]) ∧
    (Except.error () : Except Unit Unit) ≠ Except.ok () := by
  exact ⟨rfl, by simp⟩

/-- Claim C3 (amended): `refresh_cache` aborts at the first subject whose
database cannot be opened or whose discovery query errors, returning
`Err`; the cache swap never runs in that case, so the cache keeps its
previous contents — previously cached subjects survive, but the entries
built for other subjects in the aborted cycle are discarded.  On a
fully successful build the whole new map replaces the cache. -/
theorem C3_amended_refresh_abort_semantics :
    (∀ (ds : List SubjectProbe) (old : Cache) (e : Unit),
        buildSchemaMap ds = Except.error e →
        refreshCache ds old = (Except.error e, old)) ∧
    (∀ (ds : List SubjectProbe) (old : Cache) (m : Cache),
        buildSchemaMap ds = Except.ok m →
        refreshCache ds old = (Except.ok (), m)) := by
  constructor
  · intro ds old e h
    unfold refreshCache
    rw [h]
  · intro ds old m h
    unfold refreshCache
    rw [h]

/-- Claim C3 (witness for the amended theorem): a single unopenable
subject makes refresh return the error while the old cache is kept. -/
theorem C3_amended_refresh_abort_semantics_witness :
    refreshCache
        [⟨"b", true, false, ProbeOutcome.prepErr, ProbeOutcome.prepErr,
          ProbeOutcome.prepErr, []⟩]
        [("keep", ["t1"])]
      = (Except.error (), [("keep", ["t1"])]) :=
  C3_amended_refresh_abort_semantics.1 _ _ () rfl

end NlCube

namespace NlCube

/-- Claim C4 (counterexample): on the spec's own example — snapshot with
column `OrderId`, input `SELECT orderid FROM t` — the qualifier returns
its input unchanged: the output still contains `orderid` and never
contains `OrderId`.  Column names are not even an input of
`apply_simple_qualification`, so no casing or typo substitution can
occur. -/
theorem C4_no_case_correction_counterexample :
    apply_simple_qualification "SELECT orderid FROM t" ["t"] "x"
      = "SELECT orderid FROM t" ∧
    rustContains (apply_simple_qualification "SELECT orderid FROM t" ["t"] "x") "orderid"
      = true ∧
    rustContains (apply_simple_qualification "SELECT orderid FROM t" ["t"] "x") "OrderId"
      = false := by
  refine ⟨by decide, by decide, by decide⟩

/-- Claim C4 (amended): the qualifier performs no identifier-case or
typo correction — with no tables it is the identity, and even with
tables it leaves every word token untouched (only whole table
references after the keyword patterns are rewritten).  The
`levenshtein_distance` helper does compute the edit distances the spec
describes (1 for `custmer_id` vs `customer_id`, 9 for `id` vs
`customer_id`, 2 for `orderid` vs `OrderId`) but is never invoked by
the qualification pass. -/
theorem C4_amended_no_identifier_correction :
    (∀ (sql schema : String), apply_simple_qualification sql [] schema = sql) ∧
    apply_simple_qualification "SELECT orderid, custmer_id FROM t" ["t"] "x"
      = "SELECT orderid, custmer_id FROM t" ∧
    levenshtein_distance "custmer_id" "customer_id" = 1 ∧
    levenshtein_distance "id" "customer_id" = 9 ∧
    levenshtein_distance "orderid" "OrderId" = 2 := by
  refine ⟨fun sql schema => rfl, by decide, by decide, by decide, by decide⟩

/-- Claim C4 (witness for the amended theorem): the no-table instance of
the identity conjunct at a concrete input. -/
theorem C4_amended_no_identifier_correction_witness :
    apply_simple_qualification "SELECT custmer_id FROM orders" [] "sales"
      = "SELECT custmer_id FROM orders" :=
  C4_amended_no_identifier_correction.1 "SELECT custmer_id FROM orders" "sales"

/-- Claim C5 (counterexample): when the `sqlite_master` query prepares
fine but returns no rows, the code skips `SHOW TABLES` entirely (it
jumps to PRAGMA), whereas the claimed chain would try `SHOW TABLES`
next and obtain `["t"]`; and a `query_map` error in the first strategy
makes discovery fail fatally, which the claim rules out. -/
theorem C5_discovery_chain_counterexample :
    discoverTables (ProbeOutcome.rows []) (ProbeOutcome.rows ["t"])
        ProbeOutcome.prepErr [false, false, false, false]
      = Except.ok [] ∧
    specDiscoverTables (ProbeOutcome.rows []) (ProbeOutcome.rows ["t"])
        ProbeOutcome.prepErr [false, false, false, false]
      = ["t"] ∧
    ([] : List String) ≠ ["t"] ∧
    discoverTables ProbeOutcome.queryErr (ProbeOutcome.rows ["t"])
        ProbeOutcome.prepErr [false, false, false, false]
      = Except.error () := by
  refine ⟨rfl, rfl, by decide, rfl⟩

/-- Claim C5 (amended): the chain actually implemented — `SHOW TABLES`
is consulted only when `sqlite_master` fails to *prepare* (never on an
empty result, whose value the result does not even depend on); when the
collected tables are still empty, `PRAGMA table_list` is tried with its
rows filtered for internal prefixes, then the fixed-name probe; prepare
failures are tolerated, but a `query_map` error in any of the first
three strategies aborts discovery with an error. -/
theorem C5_amended_discovery_chain :
    (∀ (ts : List String) (s2 s2' s3 : ProbeOutcome) (s4 : List Bool),
        discoverTables (ProbeOutcome.rows ts) s2 s3 s4
          = discoverTables (ProbeOutcome.rows ts) s2' s3 s4) ∧
    (∀ (ts : List String) (s2 s3 : ProbeOutcome) (s4 : List Bool), ts ≠ [] →
        discoverTables (ProbeOutcome.rows ts) s2 s3 s4 = Except.ok ts) ∧
    (∀ (ts : List String) (s3 : ProbeOutcome) (s4 : List Bool), ts ≠ [] →
        discoverTables ProbeOutcome.prepErr (ProbeOutcome.rows ts) s3 s4
          = Except.ok ts) ∧
    (∀ (s2 s3 : ProbeOutcome) (s4 : List Bool),
        discoverTables ProbeOutcome.queryErr s2 s3 s4 = Except.error ()) ∧
    (∀ (s2 : ProbeOutcome) (ts : List String) (s4 : List Bool),
        discoverTables (ProbeOutcome.rows []) s2 (ProbeOutcome.rows ts) s4
          = Except.ok
              (if (ts.filter (fun t => !isInternalName t)).isEmpty then probeFixed s4
               else ts.filter (fun t => !isInternalName t))) ∧
    (∀ (s2 : ProbeOutcome) (s4 : List Bool),
        discoverTables (ProbeOutcome.rows []) s2 ProbeOutcome.prepErr s4
          = Except.ok (probeFixed s4)) ∧
    (∀ (s2 : ProbeOutcome) (s4 : List Bool),
        discoverTables (ProbeOutcome.rows []) s2 ProbeOutcome.queryErr s4
          = Except.error ()) := by
  refine ⟨?_, ?_, ?_, ?_, ?_, ?_, ?_⟩
  · intro ts s2 s2' s3 s4
    rfl
  · intro ts s2 s3 s4 h
    cases ts with
    | nil => exact absurd rfl h
    | cons a l => rfl
  · intro ts s3 s4 h
    cases ts with
    | nil => exact absurd rfl h
    | cons a l => rfl
  · intro s2 s3 s4
    rfl
  · intro s2 ts s4
    rfl
  · intro s2 s4
    rfl
  · intro s2 s4
    rfl

/-- Claim C5 (witness for the amended theorem): a non-empty
`sqlite_master` result is returned as-is, untouched by errors in the
later strategies. -/
theorem C5_amended_discovery_chain_witness :
    discoverTables (ProbeOutcome.rows ["t1"]) ProbeOutcome.queryErr
        ProbeOutcome.queryErr [true, true, true, true]
      = Except.ok ["t1"] :=
  C5_amended_discovery_chain.2.1 ["t1"] ProbeOutcome.queryErr ProbeOutcome.queryErr
    [true, true, true, true] (by decide)

/-- Claim C6 (counterexample): the comment-only model output
`"-- no idea"` is *not* treated as a generation failure: extraction
returns it verbatim, the trim-emptiness checks in `generate_sql` and in
`nl_query` both pass, and the request proceeds. -/
theorem C6_comment_only_not_rejected :
    generate_sql_postcheck "-- no idea" = some (Except.ok "-- no idea") ∧
    nlQueryExecutedSql "sales" "-- no idea"
      = Except.ok "SELECT COUNT(*) FROM \"sales\".\"orders\";" := by
  exact ⟨rfl, rfl⟩

/-- Claim C6 (amended): the pipeline rejects an extraction result (and
`nl_query` rejects a generated SQL string) exactly when it is empty or
whitespace-only after trimming; comment-only text such as `-- no idea`
is not empty after trimming and is passed on. -/
theorem C6_amended_only_trim_empty_is_failure :
    (∀ (content sql : String), extract_sql content = some sql →
        (generate_sql_postcheck content = some (Except.error ())
          ↔ rustIsEmpty (rustTrim sql) = true)) ∧
    (∀ (subject raw : String),
        nlQueryExecutedSql subject raw = Except.error "The model produced empty SQL"
          ↔ rustIsEmpty (rustTrim raw) = true) := by
  constructor
  · intro content sql h
    unfold generate_sql_postcheck
    rw [h]
    by_cases he : rustIsEmpty (rustTrim sql) = true
    · simp [he]
    · simp [he]
  · intro subject raw
    unfold nlQueryExecutedSql
    by_cases he : rustIsEmpty (rustTrim raw) = true
    · simp [he]
    · simp [he]

/-- Claim C6 (witness for the amended theorem): the empty model output
is rejected as a generation failure. -/
theorem C6_amended_only_trim_empty_is_failure_witness :
    generate_sql_postcheck "" = some (Except.error ()) :=
  (C6_amended_only_trim_empty_is_failure.1 "" "" rfl).mpr rfl

/-- Claim C7: the extraction strategies apply in source order.  The two
spec examples hold, and one discriminating input per adjacent pair of
strategies shows the priority: a SQL-tagged fence wins over an earlier
untagged fence, an untagged fence wins over a keyword line, the keyword
line scan (accumulating until `;` or a fence) wins over the verbatim
fallback, and non-matching text is returned verbatim. -/
theorem C7_extraction_strategy_order :
    extract_sql "Sure!\n```sql\nSELECT 1\n```" = some "SELECT 1" ∧
    extract_sql "SELECT 1 FROM orders;" = some "SELECT 1 FROM orders;" ∧
    extract_sql "```\nA\n```\n```sql\nB\n```" = some "B" ∧
    extract_sql "text\n```\nnot sql\n```\nSELECT 5;" = some "not sql" ∧
    extract_sql "hello\nSELECT 5\nworld" = some "SELECT 5 world" ∧
    extract_sql "hello world" = some "hello world" := by
  refine ⟨rfl, rfl, rfl, rfl, rfl, rfl⟩

end NlCube

namespace NlCube

/-- Claim C8 (counterexample): the rewriting patterns are exact
single-space strings, so a table reference at the very end of the input
is not rewritten at all (no `"sales"."orders"` appears), while the
hardcoded `table.order_id` pattern *does* rewrite inside the longer
identifier `xorders`, a partial rewrite the claim rules out. -/
theorem C8_word_boundary_counterexample :
    apply_simple_qualification "SELECT * FROM orders" ["orders"] "sales"
      = "SELECT * FROM orders" ∧
    rustContains (apply_simple_qualification "SELECT * FROM orders" ["orders"] "sales")
        "\"sales\".\"orders\""
      = false ∧
    apply_simple_qualification "SELECT xorders.order_id FROM t" ["orders"] "sales"
      = "SELECT x\"sales\".\"orders\".order_id FROM t" := by
  refine ⟨by decide, by decide, by decide⟩

/-- Claim C8 (amended): a known table reference is rewritten to
`"subject"."table"` only when it matches one of the exact patterns
` FROM t `, ` FROM t;`, ` JOIN t `, `UPDATE t `, `INSERT INTO t `,
`DELETE FROM t ` — a single space (or, after FROM, a semicolon) on each
side.  References at end of input, before a newline, or with other
whitespace are left unchanged; the keyword patterns never rewrite a
table name inside a longer identifier (though the separate
`t.order_id` pattern can, per the counterexample). -/
theorem C8_amended_exact_pattern_qualification :
    apply_simple_qualification "SELECT * FROM orders WHERE region = 1" ["orders"] "sales"
      = "SELECT * FROM \"sales\".\"orders\" WHERE region = 1" ∧
    apply_simple_qualification "SELECT * FROM orders;" ["orders"] "sales"
      = "SELECT * FROM \"sales\".\"orders\" ;" ∧
    apply_simple_qualification "SELECT a FROM customers" ["customers"] "sales"
      = "SELECT a FROM customers" ∧
    apply_simple_qualification "SELECT *\nFROM orders\nWHERE x = 1" ["orders"] "sales"
      = "SELECT *\nFROM orders\nWHERE x = 1" ∧
    apply_simple_qualification "SELECT * FROM  orders " ["orders"] "sales"
      = "SELECT * FROM  orders " ∧
    apply_simple_qualification "SELECT * FROM ordersx WHERE a = 1" ["orders"] "sales"
      = "SELECT * FROM ordersx WHERE a = 1" ∧
    apply_simple_qualification "SELECT * JOIN xorders ON b = 1" ["orders"] "sales"
      = "SELECT * JOIN xorders ON b = 1" := by
  refine ⟨by decide, by decide, by decide, by decide, by decide, by decide, by decide⟩

/-- Claim C9 (counterexample): two panic paths exist.  `extract_sql` on
a `"```sql"` opener with no separate closing fence slices with start
beyond end (an out-of-bounds panic, modelled `none`), and
`execute_stmt` with 28 parameters hits the `unimplemented!()` arm. -/
theorem C9_panic_paths_exist :
    extract_sql "```sql\nSELECT 1" = none ∧
    execute_stmt_dispatch 28 = none := by
  exact ⟨rfl, rfl⟩

/-- Claim C9 (amended): the panics are exactly bounded — `extract_sql`
panics precisely when its tagged-fence strategy does (first `"```sql"`
present with the last `"```"` before its interior could start) and
otherwise returns a string; `execute_stmt` dispatches without panic
precisely for 0–27 parameters, as its own doc comment states; and a
properly closed tagged fence is extracted fine. -/
theorem C9_amended_panic_boundaries :
    (∀ (content : String),
        extract_sql content = none ↔ tryTaggedFence content = ExtractStep.panic) ∧
    (∀ (n : Nat), execute_stmt_dispatch n = none ↔ 27 < n) ∧
    extract_sql "```sql\nSELECT 2\n```" = some "SELECT 2" := by
  refine ⟨?_, ?_, rfl⟩
  · intro content
    unfold extract_sql
    cases ht : tryTaggedFence content with
    | panic => simp
    | found s => simp
    | declined =>
      cases hp : tryPlainFence content with
      | panic => exact absurd hp (tryPlainFence_ne_panic content)
      | found s => simp
      | declined =>
        cases hl : lineScan (rustLines content) with
        | panic => simp
        | found s => simp
        | declined => simp
  · intro n
    unfold execute_stmt_dispatch
    by_cases h : n ≤ 27
    · simp only [if_pos h]
      constructor
      · intro hc
        exact absurd hc (by simp)
      · intro hc
        omega
    · simp only [if_neg h]
      constructor
      · intro _
        omega
      · intro _
        trivial

/-- Claim C9 (witness for the amended theorem): the fenceless tagged
opener and a 30-parameter call are on the panicking side of the
boundary. -/
theorem C9_amended_panic_boundaries_witness :
    extract_sql "```sql" = none ∧ execute_stmt_dispatch 30 = none :=
  ⟨(C9_amended_panic_boundaries.1 "```sql").mpr rfl,
   (C9_amended_panic_boundaries.2.1 30).mpr (by omega)⟩

/-- Claim C10: refresh builds the whole new map (`buildSchemaMap`)
before any cache mutation, and the only write to the shared cache is
the single whole-map assignment; along any interleaving of reader reads
with that swap, every observed value is either the complete old cache
or the complete new map — never a mixture. -/
theorem C10_refresh_swap_atomic (ds : List SubjectProbe) (old m : Cache)
    (es : List CacheEvent) (c : Cache)
    (hbuild : buildSchemaMap ds = Except.ok m) :
    refreshCache ds old = (Except.ok (), m) ∧
    (c ∈ observations m es old → c = old ∨ c = m) := by
  constructor
  · unfold refreshCache
    rw [hbuild]
  · exact observations_mem m es old c

/-- Claim C10 (witness): a concrete successful refresh with one reader
before and one after the swap; both observations are a complete
snapshot. -/
theorem C10_refresh_swap_atomic_witness :
    refreshCache [] [("a", ["t"])] = (Except.ok (), ([] : Cache)) ∧
    ([("a", ["t"])] = ([("a", ["t"])] : Cache) ∨ [("a", ["t"])] = ([] : Cache)) :=
  ⟨(C10_refresh_swap_atomic [] [("a", ["t"])] [] [CacheEvent.read] [("a", ["t"])] rfl).1,
   (C10_refresh_swap_atomic [] [("a", ["t"])] [] [CacheEvent.read] [("a", ["t"])] rfl).2
     (by decide)⟩

end NlCube
